import Mathlib

/-!
Shallow embedding of the `Md2Option` component of the md2 repository
(the option component source file): option state, getters, selection
methods, keyboard handling and selection-change event emission.

Mutating methods are embedded as functions from the option state to a pair
of the new option state and the list of `Md2OptionSelectionChange` events
emitted during the call (in emission order).
-/

/-- The option group an option may belong to.  The option component only
reads the group's `disabled` flag (`this.group.disabled`); the group is
modelled by that flag. -/
structure Md2Optgroup where
  disabled : Bool
deriving DecidableEq

/-- The decimal digit character for `d` (`0 ↦ '0', …, 9 ↦ '9'`), as
JavaScript renders each digit of a non-negative integer. -/
def digitChar (d : Nat) : Char := Char.ofNat (48 + d)

/-- Decimal rendering of a natural number, as a JavaScript template
literal renders the non-negative integer `_uniqueIdCounter` when it is
interpolated into `md2-option-$\x7bcounter\x7d`. -/
def decRepr (n : Nat) : String :=
  if n = 0 then "0" else ⟨((Nat.digits 10 n).map digitChar).reverse⟩

/-- The fixed part of every option id. -/
def idStem : String := "md2-option-"

/-- The id string assigned to the option created when the module-level
counter `_uniqueIdCounter` holds `c`: `md2-option-$\x7bc\x7d`. -/
def mkId (c : Nat) : String := idStem ++ decRepr c

/-- State of a single `Md2Option` component instance.  `value` keeps the
source's `any` type as a type parameter. -/
structure Md2Option (α : Type) where
  _selected : Bool
  _active : Bool
  _disabled : Bool
  _id : String
  multiple : Bool
  value : α
  group : Option Md2Optgroup
deriving DecidableEq

/-- Event object emitted by an option when selected or deselected:
`Md2OptionSelectionChange` carries the emitting option and whether the
change came from user interaction. -/
structure Md2OptionSelectionChange (α : Type) where
  source : Md2Option α
  isUserInput : Bool
deriving DecidableEq

/-- Construction of an option: the field initializers of the class
(`_selected = false`, `_active = false`, `_disabled = false`,
`multiple = false`, `_id = md2-option-$\x7b_uniqueIdCounter++\x7d`)
together with the post-increment of the module-level counter.  Returns
the new option and the updated counter. -/
def Md2Option.create (group : Option Md2Optgroup) (value : α) (counter : Nat) :
    Md2Option α × Nat :=
  ({ _selected := false
     _active := false
     _disabled := false
     _id := mkId counter
     multiple := false
     value := value
     group := group },
   counter + 1)

/-- Getter `id`: returns the stored unique id. -/
def Md2Option.id (o : Md2Option α) : String := o._id

/-- Getter `selected`: returns the stored flag. -/
def Md2Option.selected (o : Md2Option α) : Bool := o._selected

/-- Getter `active`: returns the stored flag. -/
def Md2Option.active (o : Md2Option α) : Bool := o._active

/-- Getter `disabled`: `(this.group && this.group.disabled) || this._disabled`. -/
def Md2Option.disabled (o : Md2Option α) : Bool :=
  (match o.group with
   | some g => g.disabled
   | none => false) || o._disabled

/-- `_emitSelectionChangeEvent(isUserInput)`: emits one
`Md2OptionSelectionChange` whose source is the current option. -/
def Md2Option._emitSelectionChangeEvent (o : Md2Option α) (isUserInput : Bool) :
    List (Md2OptionSelectionChange α) :=
  [{ source := o, isUserInput := isUserInput }]

/-- `select()`: sets `_selected = true` and emits a selection change event
(with the default `isUserInput = false`). -/
def Md2Option.select (o : Md2Option α) :
    Md2Option α × List (Md2OptionSelectionChange α) :=
  let o' := { o with _selected := true }
  (o', o'._emitSelectionChangeEvent false)

/-- `deselect()`: sets `_selected = false` and emits a selection change
event (with the default `isUserInput = false`). -/
def Md2Option.deselect (o : Md2Option α) :
    Md2Option α × List (Md2OptionSelectionChange α) :=
  let o' := { o with _selected := false }
  (o', o'._emitSelectionChangeEvent false)

/-- `setActiveStyles()`: sets `_active = true`; emits nothing. -/
def Md2Option.setActiveStyles (o : Md2Option α) :
    Md2Option α × List (Md2OptionSelectionChange α) :=
  ({ o with _active := true }, [])

/-- `setInactiveStyles()`: sets `_active = false`; emits nothing. -/
def Md2Option.setInactiveStyles (o : Md2Option α) :
    Md2Option α × List (Md2OptionSelectionChange α) :=
  ({ o with _active := false }, [])

/-- `_selectViaInteraction()`: when the option is not disabled, toggles
`_selected` in multiple mode and forces it to `true` otherwise, then
emits a selection change event with `isUserInput = true`; when disabled,
does nothing. -/
def Md2Option._selectViaInteraction (o : Md2Option α) :
    Md2Option α × List (Md2OptionSelectionChange α) :=
  if o.disabled then (o, [])
  else
    let o' := { o with _selected := if o.multiple then !o._selected else true }
    (o', o'._emitSelectionChangeEvent true)

/-- Key code of the Enter key.  Modelled from the spec: the keycodes
module is not among the given sources; the spec names Enter and Space as
the triggering key codes, with their standard DOM values. -/
def ENTER : Nat := 13

/-- Key code of the Space key.  Modelled from the spec, as for `ENTER`. -/
def SPACE : Nat := 32

/-- `_handleKeydown(event)`: runs `_selectViaInteraction()` when
`event.keyCode` is `ENTER` or `SPACE`, and does nothing otherwise.  The
event is represented by its key code. -/
def Md2Option._handleKeydown (o : Md2Option α) (keyCode : Nat) :
    Md2Option α × List (Md2OptionSelectionChange α) :=
  if keyCode = ENTER || keyCode = SPACE then o._selectViaInteraction
  else (o, [])

/-- Decimal parsing: a left inverse of `decRepr`, used to show that id
strings embed the creation counter injectively. -/
def decVal (s : String) : Nat :=
  Nat.ofDigits 10 ((s.data.map fun c => c.toNat - 48).reverse)

/-- The counter embedded in an option id: the decimal value of the id
with the fixed eleven-character stem removed. -/
def idVal (s : String) : Nat := decVal ⟨s.data.drop 11⟩

/-- Sample enabled, non-multiple, unselected option used by witnesses. -/
def opt0 : Md2Option Nat := (Md2Option.create none 0 0).1

/-- `opt0` switched into multiple mode. -/
def opt0m : Md2Option Nat := { opt0 with multiple := true }

/-- `opt0` with its own disabled flag set. -/
def opt0d : Md2Option Nat := { opt0 with _disabled := true }

lemma toNat_digitChar : ∀ d < 10, (digitChar d).toNat = 48 + d := by decide

lemma decVal_decRepr (n : Nat) : decVal (decRepr n) = n := by
  by_cases h : n = 0
  · subst h; decide
  · unfold decVal decRepr
    rw [if_neg h]
    show Nat.ofDigits 10
      (((((Nat.digits 10 n).map digitChar).reverse).map fun c => c.toNat - 48).reverse) = n
    rw [List.map_reverse, List.reverse_reverse, List.map_map]
    have hmap : ((Nat.digits 10 n).map ((fun c => c.toNat - 48) ∘ digitChar))
        = (Nat.digits 10 n).map id := by
      apply List.map_congr_left
      intro d hd
      have hlt : d < 10 := Nat.digits_lt_base (by norm_num) hd
      show (digitChar d).toNat - 48 = d
      rw [toNat_digitChar d hlt]
      omega
    rw [hmap, List.map_id, Nat.ofDigits_digits]

lemma decRepr_injective : Function.Injective decRepr := by
  intro a b h
  have ha := decVal_decRepr a
  rw [h, decVal_decRepr b] at ha
  exact ha.symm

lemma idVal_mkId (c : Nat) : idVal (mkId c) = c := by
  unfold idVal mkId idStem
  have hdata : (("md2-option-" : String) ++ decRepr c).data
      = ("md2-option-" : String).data ++ (decRepr c).data := rfl
  rw [hdata]
  have h11 : (("md2-option-" : String).data).length = 11 := rfl
  rw [← h11, List.drop_left]
  show decVal (decRepr c) = c
  exact decVal_decRepr c

lemma mkId_injective : Function.Injective mkId := by
  intro a b h
  have ha := idVal_mkId a
  rw [h, idVal_mkId b] at ha
  exact ha.symm

lemma disabled_set_selected (o : Md2Option α) (x : Bool) :
    Md2Option.disabled { o with _selected := x } = o.disabled := rfl

lemma multiple_set_selected (o : Md2Option α) (x : Bool) :
    ({ o with _selected := x } : Md2Option α).multiple = o.multiple := rfl

/-- C1: the `disabled` getter reads true exactly when the owning group
exists and is disabled, or the option's own `_disabled` flag is set;
hence with no group, or with a non-disabled group, it returns the own
flag, and a disabled group forces true regardless of the own flag. -/
theorem disabled_getter_combines_group_and_own_flag (o : Md2Option α) :
    o.disabled = true ↔
      (∃ g, o.group = some g ∧ g.disabled = true) ∨ o._disabled = true := by
  unfold Md2Option.disabled
  cases hg : o.group with
  | none => simp [hg]
  | some g => simp [hg]

/-- C2: clicking a non-disabled option in non-multiple mode always leaves
it selected and emits exactly one event with `isUserInput = true`. -/
theorem selectViaInteraction_single_mode_selects (o : Md2Option α)
    (hd : o.disabled = false) (hm : o.multiple = false) :
    (o._selectViaInteraction).1.selected = true ∧
    (o._selectViaInteraction).2 =
      [{ source := (o._selectViaInteraction).1, isUserInput := true }] := by
  simp [Md2Option._selectViaInteraction, hd, hm, Md2Option.selected,
    Md2Option._emitSelectionChangeEvent]

/-- Witness for C2 at a concrete option. -/
theorem selectViaInteraction_single_mode_selects_witness :
    (opt0._selectViaInteraction).1.selected = true ∧
    (opt0._selectViaInteraction).2 =
      [{ source := (opt0._selectViaInteraction).1, isUserInput := true }] :=
  selectViaInteraction_single_mode_selects opt0 rfl rfl

/-- C3: clicking a non-disabled option in multiple mode negates
`selected`; two successive clicks restore the original value. -/
theorem selectViaInteraction_multiple_toggles (o : Md2Option α)
    (hd : o.disabled = false) (hm : o.multiple = true) :
    (o._selectViaInteraction).1.selected = !o.selected ∧
    ((o._selectViaInteraction).1._selectViaInteraction).1.selected = o.selected := by
  obtain ⟨s, a, d, i, m, v, g⟩ := o
  have hm2 : m = true := hm
  subst hm2
  have hd2 : Md2Option.disabled ⟨!s, a, d, i, true, v, g⟩ = false := hd
  constructor
  · simp [Md2Option._selectViaInteraction, Md2Option.selected,
      Md2Option._emitSelectionChangeEvent, hd]
  · simp [Md2Option._selectViaInteraction, Md2Option.selected,
      Md2Option._emitSelectionChangeEvent, hd, hd2]

/-- Witness for C3 at a concrete option. -/
theorem selectViaInteraction_multiple_toggles_witness :
    (opt0m._selectViaInteraction).1.selected = !opt0m.selected ∧
    ((opt0m._selectViaInteraction).1._selectViaInteraction).1.selected
      = opt0m.selected :=
  selectViaInteraction_multiple_toggles opt0m rfl rfl

/-- C4: on a disabled option, the click path and the keydown path leave
the option unchanged and emit no event. -/
theorem selectViaInteraction_disabled_noop (o : Md2Option α) (k : Nat)
    (hd : o.disabled = true) :
    o._selectViaInteraction = (o, []) ∧ o._handleKeydown k = (o, []) := by
  have h1 : o._selectViaInteraction = (o, []) := by
    simp [Md2Option._selectViaInteraction, hd]
  refine ⟨h1, ?_⟩
  unfold Md2Option._handleKeydown
  split
  · exact h1
  · rfl

/-- Witness for C4 at a concrete disabled option, with the Enter key. -/
theorem selectViaInteraction_disabled_noop_witness :
    opt0d._selectViaInteraction = (opt0d, []) ∧
    opt0d._handleKeydown 13 = (opt0d, []) :=
  selectViaInteraction_disabled_noop opt0d 13 rfl

/-- C5: every event emitted by `_selectViaInteraction` carries
`isUserInput = true`; every event emitted by `select()` or `deselect()`
carries `isUserInput = false`. -/
theorem emitted_isUserInput_matches_path (o : Md2Option α) :
    ((o._selectViaInteraction).2.all fun e => e.isUserInput) = true ∧
    ((o.select).2.all fun e => !e.isUserInput) = true ∧
    ((o.deselect).2.all fun e => !e.isUserInput) = true := by
  refine ⟨?_, rfl, rfl⟩
  unfold Md2Option._selectViaInteraction
  split
  · rfl
  · rfl

/-- C6: `select()` sets `selected` true and `deselect()` sets it false
unconditionally, each emitting one event with `isUserInput = false`. -/
theorem select_deselect_unconditional (o : Md2Option α) :
    (o.select).1.selected = true ∧
    (o.select).2 = [{ source := (o.select).1, isUserInput := false }] ∧
    (o.deselect).1.selected = false ∧
    (o.deselect).2 = [{ source := (o.deselect).1, isUserInput := false }] :=
  ⟨rfl, rfl, rfl, rfl⟩

/-- C7: creation increments the process-wide counter, each id embeds its
creation counter, and of two options the one created at the larger
counter embeds the strictly larger value, so the id strings differ. -/
theorem create_unique_increasing_ids (g₁ g₂ : Option Md2Optgroup) (v₁ v₂ : α)
    (c₁ c₂ : Nat) (h : c₁ < c₂) :
    (Md2Option.create g₁ v₁ c₁).2 = c₁ + 1 ∧
    idVal (Md2Option.create g₁ v₁ c₁).1.id = c₁ ∧
    idVal (Md2Option.create g₂ v₂ c₂).1.id = c₂ ∧
    (Md2Option.create g₁ v₁ c₁).1.id ≠ (Md2Option.create g₂ v₂ c₂).1.id := by
  refine ⟨rfl, idVal_mkId c₁, idVal_mkId c₂, ?_⟩
  intro hEq
  exact absurd (mkId_injective hEq) (Nat.ne_of_lt h)

/-- Witness for C7 at counters 0 and 1. -/
theorem create_unique_increasing_ids_witness :
    (Md2Option.create none (0 : Nat) 0).2 = 0 + 1 ∧
    idVal (Md2Option.create none (0 : Nat) 0).1.id = 0 ∧
    idVal (Md2Option.create none (1 : Nat) 1).1.id = 1 ∧
    (Md2Option.create none (0 : Nat) 0).1.id
      ≠ (Md2Option.create none (1 : Nat) 1).1.id :=
  create_unique_increasing_ids none none 0 1 0 1 (by decide)

/-- C8: `_handleKeydown` runs the interaction selection path exactly for
the ENTER and SPACE key codes; any other key code leaves the option
unchanged and emits nothing. -/
theorem handleKeydown_enter_space_only (o : Md2Option α) (k : Nat) :
    (k = ENTER ∨ k = SPACE → o._handleKeydown k = o._selectViaInteraction) ∧
    (¬(k = ENTER ∨ k = SPACE) → o._handleKeydown k = (o, [])) := by
  constructor
  · intro hk
    unfold Md2Option._handleKeydown
    rcases hk with hk | hk <;> simp [hk]
  · intro hk
    have h1 : k ≠ ENTER := fun hx => hk (Or.inl hx)
    have h2 : k ≠ SPACE := fun hx => hk (Or.inr hx)
    simp [Md2Option._handleKeydown, h1, h2]

/-- Witness for C8: Enter triggers the interaction path on a concrete
option; key code 65 leaves it unchanged with no event. -/
theorem handleKeydown_enter_space_only_witness :
    opt0._handleKeydown 13 = opt0._selectViaInteraction ∧
    opt0._handleKeydown 65 = (opt0, []) :=
  ⟨(handleKeydown_enter_space_only opt0 13).1 (Or.inl rfl),
   (handleKeydown_enter_space_only opt0 65).2 (by decide)⟩

/-- C9: each call to `select()` or `deselect()` emits exactly one event; a
call to `_selectViaInteraction()` emits exactly one event when the guard
passes and none when the option is disabled; the style setters emit
nothing. -/
theorem emission_once_per_selection (o : Md2Option α) :
    (o.select).2.length = 1 ∧
    (o.deselect).2.length = 1 ∧
    (o._selectViaInteraction).2.length = (if o.disabled then 0 else 1) ∧
    (o.setActiveStyles).2.length = 0 ∧
    (o.setInactiveStyles).2.length = 0 := by
  refine ⟨rfl, rfl, ?_, rfl, rfl⟩
  unfold Md2Option._selectViaInteraction
  split <;> simp_all [Md2Option._emitSelectionChangeEvent]

/-- C10: the style setters change only the `active` flag (to true and to
false respectively); `selected`, `disabled`, `multiple`, `value` and `id`
are unchanged and no event is emitted. -/
theorem setStyles_only_touch_active (o : Md2Option α) :
    o.setActiveStyles = ({ o with _active := true }, []) ∧
    o.setInactiveStyles = ({ o with _active := false }, []) ∧
    (o.setActiveStyles).1.active = true ∧
    (o.setInactiveStyles).1.active = false ∧
    (o.setActiveStyles).1.selected = o.selected ∧
    (o.setActiveStyles).1.disabled = o.disabled ∧
    (o.setActiveStyles).1.multiple = o.multiple ∧
    (o.setActiveStyles).1.value = o.value ∧
    (o.setActiveStyles).1.id = o.id ∧
    (o.setInactiveStyles).1.selected = o.selected ∧
    (o.setInactiveStyles).1.disabled = o.disabled ∧
    (o.setInactiveStyles).1.multiple = o.multiple ∧
    (o.setInactiveStyles).1.value = o.value ∧
    (o.setInactiveStyles).1.id = o.id :=
  ⟨rfl, rfl, rfl, rfl, rfl, rfl, rfl, rfl, rfl, rfl, rfl, rfl, rfl, rfl⟩
